import Mathlib

/-!
Verification of the WGSL compiler orchestration layer
(Source/WebGPU/WGSL/WGSL.cpp): the `staticCheck` pipeline, the `prepare`
pipeline, the `prepare` convenience overload, and the `evaluate` constant
routine. The individual passes (parse, typeCheck, buildCallGraph, ...) live
in other translation units and are treated as parameters of the pipeline,
exactly as the orchestration code treats them; `reorderGlobals`
(GlobalSorting.cpp) is modelled from the spec because claim C1 depends on
its cycle-detection behaviour.
-/

namespace WGSL

/-- Compilation flags attached at module construction, read-only thereafter. -/
structure Configuration where
  boundsCheckPolicy : Nat
  dumpASTEnabled : Bool
deriving DecidableEq

/-- Opaque source map (spec: format unspecified); `staticCheck` receives it as
an optional argument. -/
structure SourceMap where
  entries : List (Nat × Nat)
deriving DecidableEq

/-- One global declaration: its name and the names it references. -/
structure GlobalDecl where
  name : String
  deps : List String
deriving DecidableEq

/-- The shader module: source text, configuration, and the global
declarations of its AST (the part of the AST the orchestration layer's
claims observe). Passes mutate it in place; the embedding threads it. -/
structure ShaderModule where
  source : String
  configuration : Configuration
  globals : List GlobalDecl
deriving DecidableEq

/-- `makeUniqueRef<ShaderModule>(wgsl, configuration)`: a fresh module with
an empty AST, to be populated by the parse pass. -/
def ShaderModule.make (wgsl : String) (configuration : Configuration) : ShaderModule :=
  { source := wgsl, configuration := configuration, globals := [] }

/-- A diagnostic: message plus source location. -/
structure Error where
  message : String
  line : Nat
  column : Nat
deriving DecidableEq

/-- Warnings use the same shape as errors but never abort the pipeline. -/
structure Warning where
  message : String
  line : Nat
  column : Nat
deriving DecidableEq

/-- `FailedCheck` carries one or more errors. -/
structure FailedCheck where
  errors : List Error
deriving DecidableEq

/-- `SuccessfulCheck{ warnings, ast }`. -/
structure SuccessfulCheck where
  warnings : List Warning
  ast : ShaderModule
deriving DecidableEq

/-- A static-check pass mutates the shader module in place and reports an
optional failure (`std::optional<FailedCheck>`); the embedding returns the
mutated module explicitly. -/
abbrev Pass := ShaderModule → ShaderModule × Option FailedCheck

/-- The three external static-check passes; `reorderGlobals` is concrete
(modelled below) because its behaviour decides claim C1. -/
structure StaticPasses where
  parse : Pass
  typeCheck : Pass
  validateAttributes : Pass

/-- `isDeclared all n`: some global declaration in `all` has name `n`. -/
def isDeclared (all : List GlobalDecl) (n : String) : Bool :=
  all.any (fun g => g.name == n)

/-- A declaration is ready to be emitted by the topological sort when each of
its dependencies is either already emitted or does not name a declared
global. -/
def readyDecl (all : List GlobalDecl) (done : List String) (d : GlobalDecl) : Bool :=
  d.deps.all (fun n => done.contains n || !(isDeclared all n))

/-- Fuelled topological sort over global declarations: repeatedly emit a
ready declaration; report failure when none is ready (a dependency cycle)
or the fuel runs out with work pending. -/
def topoGo (all : List GlobalDecl) :
    Nat → List String → List GlobalDecl → List GlobalDecl → Option (List GlobalDecl)
  | _, _, acc, [] => some acc.reverse
  | 0, _, _, _ :: _ => none
  | fuel + 1, done, acc, d :: pending =>
    match (d :: pending).find? (readyDecl all done) with
    | none => none
    | some r => topoGo all fuel (r.name :: done) (r :: acc) ((d :: pending).erase r)

/-- Topologically sort a list of global declarations, or fail on a cycle. -/
def reorderGlobalsList (gs : List GlobalDecl) : Option (List GlobalDecl) :=
  topoGo gs gs.length [] [] gs

/-- The diagnostic the reorder stage produces for a dependency cycle. -/
def dependencyCycleFailure : FailedCheck :=
  { errors := [{ message := "dependency cycle in global declarations", line := 0, column := 0 }] }

/-- Modelled from the spec: the `reorderGlobals` pass lives in
GlobalSorting.cpp, which is not under src/; spec section 4.1 step 2 says it
topologically sorts global declarations by dependency and fails with a
diagnostic if a cycle among globals is detected. -/
def reorderGlobals (m : ShaderModule) : ShaderModule × Option FailedCheck :=
  match reorderGlobalsList m.globals with
  | some gs => ({ m with globals := gs }, none)
  | none => (m, some dependencyCycleFailure)

/-- A nonempty set of names, each declared among `all`, such that every
declaration in `all` carrying one of these names depends on one of these
names: the standard witness of a dependency cycle among globals. -/
def CyclicNameSet (all : List GlobalDecl) (s : List String) : Prop :=
  s ≠ [] ∧ (∀ n ∈ s, ∃ d ∈ all, d.name = n) ∧
    (∀ d ∈ all, d.name ∈ s → ∃ m ∈ d.deps, m ∈ s)

instance (all : List GlobalDecl) (s : List String) : Decidable (CyclicNameSet all s) := by
  unfold CyclicNameSet; infer_instance

/-- The global declarations contain a dependency cycle: some subset of the
declared names is cyclic in the sense of `CyclicNameSet`. -/
def hasDependencyCycle (gs : List GlobalDecl) : Bool :=
  decide (∃ s ∈ (gs.map GlobalDecl.name).sublists, CyclicNameSet gs s)

/-- `staticCheck(wgsl, sourceMap, configuration)`: build a fresh module, run
parse, reorderGlobals, typeCheck, validateAttributes in that order, each
aborting the pipeline with its FailedCheck; on success return a
SuccessfulCheck with the (empty) accumulated warnings vector and the module. -/
def staticCheck (ps : StaticPasses) (wgsl : String) (sourceMap : Option SourceMap)
    (configuration : Configuration) : SuccessfulCheck ⊕ FailedCheck :=
  let shaderModule := ShaderModule.make wgsl configuration
  match ps.parse shaderModule with
  | (_, some failure) => Sum.inr failure
  | (m1, none) =>
    match reorderGlobals m1 with
    | (_, some failure) => Sum.inr failure
    | (m2, none) =>
      match ps.typeCheck m2 with
      | (_, some failure) => Sum.inr failure
      | (m3, none) =>
        match ps.validateAttributes m3 with
        | (_, some failure) => Sum.inr failure
        | (m4, none) => Sum.inl { warnings := [], ast := m4 }

/-- Caller-supplied pipeline layout: (group, binding) pairs mapped to a
resource kind. -/
structure PipelineLayout where
  bindings : List ((Nat × Nat) × Nat)
deriving DecidableEq

/-- `HashMap<String, std::optional<PipelineLayout>>`: entry-point name to
optional layout. -/
abbrev PipelineLayouts := List (String × Option PipelineLayout)

/-- Per-entry-point reflection metadata (resource bindings used). -/
structure EntryPointInformation where
  resources : List (Nat × Nat)
deriving DecidableEq

/-- `HashMap<String, Reflection::EntryPointInformation>`. -/
abbrev EntryPoints := List (String × EntryPointInformation)

/-- The derived call graph: entry point to the functions it transitively
invokes. -/
structure CallGraph where
  callees : List (String × List String)
deriving DecidableEq

/-- `CompilationScope compilationScope(shaderModule)`: the scoped handle
bounding the lifetime of intermediate naming/rewriting state. -/
structure CompilationScope where
  module : ShaderModule
deriving DecidableEq

/-- `PrepareResult { callGraph, entryPoints, compilationScope }`. -/
structure PrepareResult where
  callGraph : CallGraph
  entryPoints : EntryPoints
  compilationScope : CompilationScope
deriving DecidableEq

/-- What became of the CompilationScope local when `prepareImpl` returned:
destroyed at scope exit (the C++ destructor ran on the failure path) or
moved into the returned PrepareResult (the success path). -/
inductive ScopeDisposition where
  | tornDown
  | transferred
deriving DecidableEq

/-- The six prepare passes. The first five are infallible — their C++
signatures return no failure (they are run with RUN_PASS / RUN_PASS_WITH_RESULT);
only `rewriteGlobalVariables` reports an optional Error (CHECK_PASS). Each
pass is modelled as a function of the arguments the call site hands it,
returning the arguments it mutates. -/
structure PreparePasses where
  buildCallGraph : ShaderModule → PipelineLayouts → EntryPoints → CallGraph × EntryPoints
  mangleNames : CallGraph → EntryPoints → CallGraph × EntryPoints
  rewritePointers : CallGraph → CallGraph
  insertBoundsChecks : ShaderModule → ShaderModule
  rewriteEntryPoints : CallGraph → CallGraph
  rewriteGlobalVariables : CallGraph → PipelineLayouts → ShaderModule →
    CallGraph × ShaderModule × Option Error

/-- The first five (infallible) prepare passes, in the order prepareImpl
runs them: buildCallGraph, mangleNames, rewritePointers, insertBoundsChecks,
rewriteEntryPoints. -/
def prepareStages (ps : PreparePasses) (shaderModule : ShaderModule)
    (pipelineLayouts : PipelineLayouts) : CallGraph × EntryPoints × ShaderModule :=
  let entryPoints : EntryPoints := []
  let (callGraph, entryPoints) := ps.buildCallGraph shaderModule pipelineLayouts entryPoints
  let (callGraph, entryPoints) := ps.mangleNames callGraph entryPoints
  let callGraph := ps.rewritePointers callGraph
  let shaderModule := ps.insertBoundsChecks shaderModule
  let callGraph := ps.rewriteEntryPoints callGraph
  (callGraph, entryPoints, shaderModule)

/-- `prepareImpl(shaderModule, pipelineLayouts)`: create the CompilationScope,
run the five infallible passes, then rewriteGlobalVariables; on its failure
return the Error (the scope local is destroyed when the function exits —
C++ scope-exit semantics, recorded as `tornDown`); on success move the
call graph, the entry-point map and the scope into the PrepareResult
(recorded as `transferred`). -/
def prepareImpl (ps : PreparePasses) (shaderModule : ShaderModule)
    (pipelineLayouts : PipelineLayouts) : (PrepareResult ⊕ Error) × ScopeDisposition :=
  let compilationScope : CompilationScope := { module := shaderModule }
  let (callGraph, entryPoints, shaderModule) := prepareStages ps shaderModule pipelineLayouts
  match ps.rewriteGlobalVariables callGraph pipelineLayouts shaderModule with
  | (_, _, some failure) => (Sum.inr failure, ScopeDisposition.tornDown)
  | (callGraph, _, none) =>
    (Sum.inl { callGraph := callGraph, entryPoints := entryPoints,
               compilationScope := compilationScope },
     ScopeDisposition.transferred)

/-- `prepare(ast, pipelineLayouts)`: the general overload. -/
def prepare (ps : PreparePasses) (ast : ShaderModule) (pipelineLayouts : PipelineLayouts) :
    (PrepareResult ⊕ Error) × ScopeDisposition :=
  prepareImpl ps ast pipelineLayouts

/-- `prepare(ast, entryPointName, pipelineLayout)`: the single-entry-point
convenience overload; builds a one-entry map and calls prepareImpl. -/
def prepareSingle (ps : PreparePasses) (ast : ShaderModule) (entryPointName : String)
    (pipelineLayout : Option PipelineLayout) : (PrepareResult ⊕ Error) × ScopeDisposition :=
  let pipelineLayouts : PipelineLayouts := []
  let pipelineLayouts := (entryPointName, pipelineLayout) :: pipelineLayouts
  prepareImpl ps ast pipelineLayouts

/-- A resolved compile-time value. `empty` is the default-constructed
ConstantValue, which WTF `HashMap::get` yields for a key that is absent. -/
inductive ConstantValue where
  | empty
  | intVal (n : Int)
deriving DecidableEq

/-- The expression kinds the `evaluate` routine distinguishes: an identifier
reference (`AST::IdentifierExpression`, carrying its identifier) or any
other expression kind. -/
inductive ExprKind where
  | identifierExpr (name : String)
  | otherExpr
deriving DecidableEq

/-- An AST expression node: its kind and the optional cached ConstantValue
(`expression.constantValue()` / `setConstantValue`). -/
structure Expression where
  kind : ExprKind
  constantValue : Option ConstantValue
deriving DecidableEq

/-- `HashMap<String, ConstantValue>`. -/
abbrev Constants := List (String × ConstantValue)

/-- WTF `HashMap::get`: the mapped value, or a default-constructed
ConstantValue when the key is absent. -/
def Constants.get (constants : Constants) (key : String) : ConstantValue :=
  match constants.find? (fun p => p.1 == key) with
  | some p => p.2
  | none => ConstantValue.empty

/-- `evaluate(expression, constants)`: return the cached constant value if
present; otherwise the expression must be an identifier reference (the
ASSERT — any other un-cached kind is an invariant violation, modelled as
`none`); look its identifier up in `constants`, cache the result onto the
node, and return it. The updated node is returned alongside the value
(the C++ caches through `const_cast` in place). -/
def evaluate (expression : Expression) (constants : Constants) :
    Option (ConstantValue × Expression) :=
  match expression.constantValue with
  | some constantValue => some (constantValue, expression)
  | none =>
    match expression.kind with
    | ExprKind.identifierExpr name =>
      let constantValue := Constants.get constants name
      some (constantValue, { expression with constantValue := some constantValue })
    | ExprKind.otherExpr => none

/-- A concrete configuration, used to instantiate theorems. -/
def cfg0 : Configuration := { boundsCheckPolicy := 0, dumpASTEnabled := false }

/-- A pass that leaves the module unchanged and succeeds. -/
def idPass : Pass := fun m => (m, none)

/-- A parse pass producing two mutually dependent global constants
(`const a = b; const b = a;`). -/
def cyclicParse : Pass :=
  fun m => ({ m with globals := [⟨"a", ["b"]⟩, ⟨"b", ["a"]⟩] }, none)

/-- A parse pass producing two acyclic globals. -/
def acyclicParse : Pass :=
  fun m => ({ m with globals := [⟨"a", []⟩, ⟨"b", ["a"]⟩] }, none)

/-- The module `acyclicParse` produces from source "w" under `cfg0`. -/
def acyclicModule : ShaderModule :=
  { source := "w", configuration := cfg0, globals := [⟨"a", []⟩, ⟨"b", ["a"]⟩] }

/-- An empty module used to instantiate the prepare theorems. -/
def m0 : ShaderModule := ShaderModule.make "" cfg0

/-- Prepare passes that leave everything unchanged; rewriteGlobalVariables
succeeds. -/
def trivialPreparePasses : PreparePasses :=
  { buildCallGraph := fun _ _ entryPoints => ({ callees := [] }, entryPoints)
    mangleNames := fun callGraph entryPoints => (callGraph, entryPoints)
    rewritePointers := fun callGraph => callGraph
    insertBoundsChecks := fun m => m
    rewriteEntryPoints := fun callGraph => callGraph
    rewriteGlobalVariables := fun callGraph _ m => (callGraph, m, none) }

/-- The layout-mismatch diagnostic used by the failing prepare fixture. -/
def layoutMismatchError : Error :=
  { message := "resource has no compatible pipeline layout slot", line := 0, column := 0 }

/-- Prepare passes whose rewriteGlobalVariables pass fails. -/
def failingPreparePasses : PreparePasses :=
  { trivialPreparePasses with
    rewriteGlobalVariables := fun callGraph _ m => (callGraph, m, some layoutMismatchError) }

/-! Helper lemmas about the topological sort: a cyclic name set keeps its
declarations pending forever, so the sort fails. -/

theorem topoGo_cycle_none (all : List GlobalDecl) (s : List String)
    (hne : s ≠ []) (hdecl : ∀ n ∈ s, ∃ d ∈ all, d.name = n)
    (hcyc : ∀ d ∈ all, d.name ∈ s → ∃ m ∈ d.deps, m ∈ s) :
    ∀ fuel (done : List String) (acc pending : List GlobalDecl),
      pending ⊆ all → (∀ n ∈ s, n ∉ done) →
      (∀ n ∈ s, ∃ d ∈ pending, d.name = n) →
      topoGo all fuel done acc pending = none := by
  intro fuel
  induction fuel with
  | zero =>
    intro done acc pending _ _ hpend
    cases pending with
    | nil =>
      obtain ⟨n, hn⟩ := List.exists_mem_of_ne_nil s hne
      obtain ⟨d, hd, _⟩ := hpend n hn
      exact absurd hd (List.not_mem_nil d)
    | cons d tl => rfl
  | succ fuel ih =>
    intro done acc pending hsub hdone hpend
    cases pending with
    | nil =>
      obtain ⟨n, hn⟩ := List.exists_mem_of_ne_nil s hne
      obtain ⟨d, hd, _⟩ := hpend n hn
      exact absurd hd (List.not_mem_nil d)
    | cons d tl =>
      cases hfind : (d :: tl).find? (readyDecl all done) with
      | none => simp [topoGo, hfind]
      | some r =>
        have hrmem : r ∈ d :: tl := List.mem_of_find?_eq_some hfind
        have hready : readyDecl all done r = true := List.find?_some hfind
        have hrnot : r.name ∉ s := by
          intro hrs
          obtain ⟨mm, hmm, hms⟩ := hcyc r (hsub hrmem) hrs
          have hd2 : isDeclared all mm = true := by
            obtain ⟨dd, hdd, hdn⟩ := hdecl mm hms
            unfold isDeclared
            rw [List.any_eq_true]
            exact ⟨dd, hdd, by simp [hdn]⟩
          unfold readyDecl at hready
          rw [List.all_eq_true] at hready
          have hmm2 := hready mm hmm
          rw [hd2] at hmm2
          simp at hmm2
          exact hdone mm hms hmm2
        have hstep : topoGo all (fuel + 1) done acc (d :: tl) =
            topoGo all fuel (r.name :: done) (r :: acc) ((d :: tl).erase r) := by
          simp [topoGo, hfind]
        rw [hstep]
        apply ih
        · exact fun x hx => hsub (List.erase_subset r (d :: tl) hx)
        · intro n hns hmem
          cases List.mem_cons.mp hmem with
          | inl h => exact hrnot (h ▸ hns)
          | inr h => exact hdone n hns h
        · intro n hns
          obtain ⟨dd, hdd, hdn⟩ := hpend n hns
          refine ⟨dd, ?_, hdn⟩
          have hddne : dd ≠ r := by
            intro h
            subst h
            exact hrnot (hdn ▸ hns)
          exact (List.mem_erase_of_ne hddne).mpr hdd

theorem reorderGlobalsList_of_cycle (gs : List GlobalDecl)
    (h : hasDependencyCycle gs = true) : reorderGlobalsList gs = none := by
  unfold hasDependencyCycle at h
  rw [decide_eq_true_iff] at h
  obtain ⟨s, _, hcns⟩ := h
  obtain ⟨hne, hdecl, hcyc⟩ := hcns
  exact topoGo_cycle_none gs s hne hdecl hcyc gs.length [] [] gs
    (List.Subset.refl gs) (fun n _ => List.not_mem_nil n) hdecl

/-- C1: staticCheck runs parse, reorderGlobals, typeCheck,
validateAttributes in that strict order and short-circuits at the first
failure: when parse succeeds and the parsed module's global declarations
contain a dependency cycle, staticCheck returns the reorder-stage
diagnostic, for every choice of typeCheck and validateAttributes passes
(so neither later pass is ever executed), and the failure result carries
no AST (the `Sum.inr` alternative holds only a FailedCheck). -/
theorem staticCheck_cycle_short_circuit (parse typeCheck validateAttributes : Pass)
    (wgsl : String) (sourceMap : Option SourceMap) (configuration : Configuration)
    (m1 : ShaderModule)
    (hparse : parse (ShaderModule.make wgsl configuration) = (m1, none))
    (hcycle : hasDependencyCycle m1.globals = true) :
    staticCheck { parse := parse, typeCheck := typeCheck,
                  validateAttributes := validateAttributes } wgsl sourceMap configuration =
      Sum.inr dependencyCycleFailure := by
  have hre : reorderGlobals m1 = (m1, some dependencyCycleFailure) := by
    unfold reorderGlobals
    rw [reorderGlobalsList_of_cycle m1.globals hcycle]
  simp [staticCheck, hparse, hre]

/-- Witness for C1 at `const a = b; const b = a;`. -/
theorem staticCheck_cycle_short_circuit_witness :
    staticCheck { parse := cyclicParse, typeCheck := idPass, validateAttributes := idPass }
      "const a = b; const b = a;" none cfg0 = Sum.inr dependencyCycleFailure :=
  staticCheck_cycle_short_circuit cyclicParse idPass idPass
    "const a = b; const b = a;" none cfg0
    { source := "const a = b; const b = a;", configuration := cfg0,
      globals := [⟨"a", ["b"]⟩, ⟨"b", ["a"]⟩] }
    rfl (by decide)

/-- C2: prepareImpl runs buildCallGraph, mangleNames, rewritePointers,
insertBoundsChecks, rewriteEntryPoints, rewriteGlobalVariables in that
strict order; the first five are infallible by their signatures (see
`PreparePasses`), so the outcome is decided by rewriteGlobalVariables
alone: when it succeeds, prepare returns the PrepareResult, and when it
fails, prepare returns that pass's Error. -/
theorem prepare_only_rewrite_globals_fails (ps : PreparePasses) (m : ShaderModule)
    (layouts : PipelineLayouts) (cg : CallGraph) (eps : EntryPoints) (sm : ShaderModule)
    (hstages : prepareStages ps m layouts = (cg, eps, sm)) :
    (∀ cg2 sm2, ps.rewriteGlobalVariables cg layouts sm = (cg2, sm2, none) →
      (prepareImpl ps m layouts).1 =
        Sum.inl { callGraph := cg2, entryPoints := eps,
                  compilationScope := { module := m } }) ∧
    (∀ cg2 sm2 e, ps.rewriteGlobalVariables cg layouts sm = (cg2, sm2, some e) →
      (prepareImpl ps m layouts).1 = Sum.inr e) := by
  constructor
  · intro cg2 sm2 hr
    simp [prepareImpl, hstages, hr]
  · intro cg2 sm2 e hr
    simp [prepareImpl, hstages, hr]

/-- Witness for C2 with passes whose rewriteGlobalVariables succeeds. -/
theorem prepare_only_rewrite_globals_fails_witness :
    (prepareImpl trivialPreparePasses m0 []).1 =
      Sum.inl { callGraph := { callees := [] }, entryPoints := [],
                compilationScope := { module := m0 } } :=
  (prepare_only_rewrite_globals_fails trivialPreparePasses m0 []
    { callees := [] } [] m0 rfl).1 { callees := [] } m0 rfl

/-- C3: evaluate is memoizing and idempotent: a node already carrying a
cached constant value is returned unchanged with that value for every
constants map (the map is never consulted), and whenever a call returns a
value together with the updated node, re-evaluating that node yields the
same value and the same node under every constants map (the second call
performs no map lookup). -/
theorem evaluate_memoization (e : Expression) (c : Constants) :
    (∀ v, e.constantValue = some v → ∀ c2 : Constants, evaluate e c2 = some (v, e)) ∧
    (∀ v e2, evaluate e c = some (v, e2) →
      ∀ c2 : Constants, evaluate e2 c2 = some (v, e2)) := by
  refine ⟨fun v hv c2 => by simp [evaluate, hv], fun v e2 h c2 => ?_⟩
  cases hcv : e.constantValue with
  | some w =>
    simp [evaluate, hcv] at h
    obtain ⟨hv, he⟩ := h
    subst hv
    subst he
    simp [evaluate, hcv]
  | none =>
    cases hk : e.kind with
    | identifierExpr name =>
      simp [evaluate, hcv, hk] at h
      obtain ⟨hv, he⟩ := h
      subst hv
      subst he
      simp [evaluate]
    | otherExpr => simp [evaluate, hcv, hk] at h

/-- Witness for C3: a first call on an un-cached identifier caches the
looked-up value; re-evaluating the returned node against a different
(empty) map returns the same value and node. -/
theorem evaluate_memoization_witness :
    evaluate { kind := ExprKind.identifierExpr "x",
               constantValue := some (ConstantValue.intVal 7) } [] =
      some (ConstantValue.intVal 7,
        { kind := ExprKind.identifierExpr "x",
          constantValue := some (ConstantValue.intVal 7) }) :=
  (evaluate_memoization { kind := ExprKind.identifierExpr "x", constantValue := none }
      [("x", ConstantValue.intVal 7)]).2 (ConstantValue.intVal 7)
    { kind := ExprKind.identifierExpr "x", constantValue := some (ConstantValue.intVal 7) }
    (by decide) []

/-- C4: when all four static-check passes succeed, staticCheck returns a
SuccessfulCheck carrying the fully checked module together with the
accumulated warnings vector. In this orchestration the pass interface has
no warning channel, so the accumulated vector is the empty list and,
vacuously, every warning produced by a pass appears in it. -/
theorem staticCheck_success_shape (ps : StaticPasses) (wgsl : String)
    (sourceMap : Option SourceMap) (configuration : Configuration)
    (m1 m2 m3 m4 : ShaderModule)
    (h1 : ps.parse (ShaderModule.make wgsl configuration) = (m1, none))
    (h2 : reorderGlobals m1 = (m2, none))
    (h3 : ps.typeCheck m2 = (m3, none))
    (h4 : ps.validateAttributes m3 = (m4, none)) :
    staticCheck ps wgsl sourceMap configuration =
      Sum.inl { warnings := [], ast := m4 } := by
  simp [staticCheck, h1, h2, h3, h4]

/-- Witness for C4 on an acyclic two-global module. -/
theorem staticCheck_success_shape_witness :
    staticCheck { parse := acyclicParse, typeCheck := idPass,
                  validateAttributes := idPass } "w" none cfg0 =
      Sum.inl { warnings := [], ast := acyclicModule } :=
  staticCheck_success_shape
    { parse := acyclicParse, typeCheck := idPass, validateAttributes := idPass }
    "w" none cfg0 acyclicModule acyclicModule acyclicModule acyclicModule
    rfl (by decide) rfl rfl

/-- C5: the single-entry-point overload of prepare builds the one-entry map
from its name and optional layout and returns exactly what the general
overload returns on that map. -/
theorem prepare_single_entry_equiv (ps : PreparePasses) (ast : ShaderModule)
    (entryPointName : String) (pipelineLayout : Option PipelineLayout) :
    prepareSingle ps ast entryPointName pipelineLayout =
      prepare ps ast [(entryPointName, pipelineLayout)] := rfl

/-- C6: on an un-cached expression, evaluate's assertion: a non-identifier
kind aborts assertion-style (modelled as `none` — no user-facing Error value
is produced), while under the precondition that the expression is an
identifier reference the abort branch is unreachable and a value is
returned. -/
theorem evaluate_uncached_invariant (e : Expression) (c : Constants)
    (h : e.constantValue = none) :
    (e.kind = ExprKind.otherExpr → evaluate e c = none) ∧
    (∀ name, e.kind = ExprKind.identifierExpr name →
      evaluate e c = some (Constants.get c name,
        { e with constantValue := some (Constants.get c name) })) := by
  constructor
  · intro hk
    simp [evaluate, h, hk]
  · intro name hk
    simp [evaluate, h, hk]

/-- Witness for C6: the abort branch on a concrete un-cached non-identifier
node, and the reachable branch on a concrete un-cached identifier node. -/
theorem evaluate_uncached_invariant_witness :
    evaluate { kind := ExprKind.otherExpr, constantValue := none } [] = none ∧
    evaluate { kind := ExprKind.identifierExpr "k", constantValue := none } [] =
      some (ConstantValue.empty,
        { kind := ExprKind.identifierExpr "k",
          constantValue := some ConstantValue.empty }) :=
  ⟨(evaluate_uncached_invariant { kind := ExprKind.otherExpr, constantValue := none }
      [] rfl).1 rfl,
   (evaluate_uncached_invariant { kind := ExprKind.identifierExpr "k", constantValue := none }
      [] rfl).2 "k" rfl⟩

/-- C7: staticCheck is deterministic: when the four passes succeed it
returns a SuccessfulCheck, and any two results of the same call carry equal
ASTs, which therefore produce identical prepare results against identical
pipeline layouts. -/
theorem staticCheck_deterministic (ps : StaticPasses) (wgsl : String)
    (sourceMap : Option SourceMap) (configuration : Configuration)
    (m1 m2 m3 m4 : ShaderModule)
    (h1 : ps.parse (ShaderModule.make wgsl configuration) = (m1, none))
    (h2 : reorderGlobals m1 = (m2, none))
    (h3 : ps.typeCheck m2 = (m3, none))
    (h4 : ps.validateAttributes m3 = (m4, none)) :
    (∃ s, staticCheck ps wgsl sourceMap configuration = Sum.inl s) ∧
    (∀ s1 s2, staticCheck ps wgsl sourceMap configuration = Sum.inl s1 →
      staticCheck ps wgsl sourceMap configuration = Sum.inl s2 →
      ∀ (pps : PreparePasses) (layouts : PipelineLayouts),
        prepare pps s1.ast layouts = prepare pps s2.ast layouts) := by
  have hsc : staticCheck ps wgsl sourceMap configuration =
      Sum.inl { warnings := [], ast := m4 } := by
    simp [staticCheck, h1, h2, h3, h4]
  refine ⟨⟨_, hsc⟩, ?_⟩
  intro s1 s2 e1 e2 pps layouts
  have h12 : s1 = s2 := Sum.inl.inj (e1.symm.trans e2)
  rw [h12]

/-- Witness for C7 on an acyclic two-global module. -/
theorem staticCheck_deterministic_witness :
    (∃ s, staticCheck { parse := acyclicParse, typeCheck := idPass,
                        validateAttributes := idPass } "w" none cfg0 = Sum.inl s) :=
  (staticCheck_deterministic
    { parse := acyclicParse, typeCheck := idPass, validateAttributes := idPass }
    "w" none cfg0 acyclicModule acyclicModule acyclicModule acyclicModule
    rfl (by decide) rfl rfl).1

/-- C8: within one prepare call the CompilationScope is scoped: when
rewriteGlobalVariables fails and prepare returns an Error, the scope local
is destroyed at scope exit (no scoped compilation state remains live), and
on success the scope created at entry is transferred into the returned
PrepareResult. -/
theorem prepare_scope_discipline (ps : PreparePasses) (m : ShaderModule)
    (layouts : PipelineLayouts) :
    (∀ e, (prepareImpl ps m layouts).1 = Sum.inr e →
      (prepareImpl ps m layouts).2 = ScopeDisposition.tornDown) ∧
    (∀ r, (prepareImpl ps m layouts).1 = Sum.inl r →
      (prepareImpl ps m layouts).2 = ScopeDisposition.transferred ∧
        r.compilationScope = { module := m }) := by
  rcases hstages : prepareStages ps m layouts with ⟨cg, eps, sm⟩
  rcases hr : ps.rewriteGlobalVariables cg layouts sm with ⟨cg2, sm2, fo⟩
  cases fo with
  | none =>
    constructor
    · intro e he
      simp [prepareImpl, hstages, hr] at he
    · intro r hrr
      simp only [prepareImpl, hstages, hr] at hrr ⊢
      have hre : r = { callGraph := cg2, entryPoints := eps,
                       compilationScope := { module := m } } :=
        (Sum.inl.inj hrr).symm
      exact ⟨trivial, by rw [hre]⟩
  | some e0 =>
    constructor
    · intro e _
      simp [prepareImpl, hstages, hr]
    · intro r hrr
      simp [prepareImpl, hstages, hr] at hrr

/-- Witness for C8 on the failing fixture: the Error path leaves the scope
torn down. -/
theorem prepare_scope_discipline_witness :
    (prepareImpl failingPreparePasses m0 []).2 = ScopeDisposition.tornDown :=
  (prepare_scope_discipline failingPreparePasses m0 []).1 layoutMismatchError rfl

/-- C9: staticCheck never consults the optional source-map argument: any two
source-map values (including absent) give identical results on the same
source text and configuration. -/
theorem staticCheck_sourceMap_independent (ps : StaticPasses) (wgsl : String)
    (configuration : Configuration) (sm1 sm2 : Option SourceMap) :
    staticCheck ps wgsl sm1 configuration = staticCheck ps wgsl sm2 configuration := rfl

/-- C10: an un-cached identifier expression whose name is absent from the
constants map does not fail: the HashMap lookup yields the default (empty)
ConstantValue, which evaluate caches onto the node and returns. -/
theorem evaluate_absent_name_default (e : Expression) (name : String) (c : Constants)
    (h1 : e.constantValue = none) (h2 : e.kind = ExprKind.identifierExpr name)
    (h3 : ∀ p ∈ c, p.1 ≠ name) :
    evaluate e c = some (ConstantValue.empty,
      { e with constantValue := some ConstantValue.empty }) := by
  have hfind : c.find? (fun p => p.1 == name) = none := by
    rw [List.find?_eq_none]
    intro p hp
    simp only [beq_iff_eq]
    exact h3 p hp
  simp [evaluate, h1, h2, Constants.get, hfind]

/-- Witness for C10 at a concrete identifier absent from the map. -/
theorem evaluate_absent_name_default_witness :
    evaluate { kind := ExprKind.identifierExpr "missing", constantValue := none }
      [("other", ConstantValue.intVal 1)] =
      some (ConstantValue.empty,
        { kind := ExprKind.identifierExpr "missing",
          constantValue := some ConstantValue.empty }) :=
  evaluate_absent_name_default
    { kind := ExprKind.identifierExpr "missing", constantValue := none }
    "missing" [("other", ConstantValue.intVal 1)] rfl rfl (by decide)

end WGSL
